import Mathlib

/-!
Verification of the `mycachelib` read-through caching layer
(`make_cache_key`, `CachedAsyncSession.execute`, `CachedAsyncSession.clear_cache`,
`register_simple_invalidation`) against its specification.

The Python source is embedded shallowly:
* machine-independent Python values (the statement text, bound parameters and
  materialized payloads) become Lean inductive types;
* `hashlib.sha256` is implemented bit-faithfully over byte lists
  (words are `Nat` reduced mod 2^32), and checked against the FIPS 180-4
  test vectors;
* the external collaborators (the Redis client, the database session and the
  event loop) become explicit oracles: each fallible call is a field of
  `Except Unit _` so that a raised exception is a first-class value;
* `async` methods suspend only at those oracle calls, so one call to
  `execute` is a pure function from (session state, oracles, clock readings)
  to (result-or-exception, new session state, observable cache effects).
-/

set_option maxRecDepth 100000

/-! ## Python scalar values and `repr` -/

/-- A Python scalar value as it appears in bound parameters: an int, a simple
string (no quote or escape characters), or a bool.  `pyRepr` below mirrors
CPython `repr` on these values. -/
inductive PVal where
  | pint : Int → PVal
  | pstr : String → PVal
  | pbool : Bool → PVal
deriving DecidableEq

/-- CPython `repr` of a supported scalar: ints print in decimal, simple strings
print between single quotes, bools print as `True` / `False`. -/
def pyRepr : PVal → String
  | .pint n => toString n
  | .pstr s => "\x27" ++ s ++ "\x27"
  | .pbool true => "True"
  | .pbool false => "False"

/-- Bound parameters: a Python `dict` in insertion order (CPython 3.7+ dicts
preserve insertion order, and `repr` displays entries in that order). -/
abbrev Params := List (String × PVal)

/-- CPython `repr` of a parameter dict: entries in insertion order, each
rendered `\x27key\x27: value`, joined by `", "`, wrapped in braces. -/
def reprParams (ps : Params) : String :=
  "\x7b" ++ String.intercalate ", "
    (ps.map fun kv => "\x27" ++ kv.1 ++ "\x27: " ++ pyRepr kv.2) ++ "\x7d"

/-! ## UTF-8 encoding (`str.encode("utf-8")`) -/

/-- UTF-8 encoding of one Unicode code point (1 to 4 bytes). -/
def utf8Char (c : Char) : List Nat :=
  let n := c.toNat
  if n < 128 then [n]
  else if n < 2048 then [192 + n / 64, 128 + n % 64]
  else if n < 65536 then [224 + n / 4096, 128 + (n / 64) % 64, 128 + n % 64]
  else [240 + n / 262144, 128 + (n / 4096) % 64, 128 + (n / 64) % 64, 128 + n % 64]

/-- UTF-8 encoding of a string, as a list of byte values. -/
def utf8Encode (s : String) : List Nat :=
  s.data.flatMap utf8Char

/-! ## SHA-256 (`hashlib.sha256`), FIPS 180-4 -/

/-- Reduce to a 32-bit word. -/
def w32 (n : Nat) : Nat := n % 4294967296

/-- Right rotation of a 32-bit word. -/
def rotr (k x : Nat) : Nat := w32 ((x >>> k) ||| (x <<< (32 - k)))

/-- Bitwise complement of a 32-bit word. -/
def wnot (x : Nat) : Nat := x ^^^ 4294967295

def sig0 (x : Nat) : Nat := rotr 2 x ^^^ rotr 13 x ^^^ rotr 22 x
def sig1 (x : Nat) : Nat := rotr 6 x ^^^ rotr 11 x ^^^ rotr 25 x
def ssig0 (x : Nat) : Nat := rotr 7 x ^^^ rotr 18 x ^^^ (x >>> 3)
def ssig1 (x : Nat) : Nat := rotr 17 x ^^^ rotr 19 x ^^^ (x >>> 10)
def chf (x y z : Nat) : Nat := (x &&& y) ^^^ (wnot x &&& z)
def majf (x y z : Nat) : Nat := (x &&& y) ^^^ (x &&& z) ^^^ (y &&& z)

/-- The 64 SHA-256 round constants. -/
def sha256K : List Nat :=
  [1116352408, 1899447441, 3049323471, 3921009573, 961987163,
   1508970993, 2453635748, 2870763221, 3624381080, 310598401,
   607225278, 1426881987, 1925078388, 2162078206, 2614888103,
   3248222580, 3835390401, 4022224774, 264347078, 604807628,
   770255983, 1249150122, 1555081692, 1996064986, 2554220882,
   2821834349, 2952996808, 3210313671, 3336571891, 3584528711,
   113926993, 338241895, 666307205, 773529912, 1294757372,
   1396182291, 1695183700, 1986661051, 2177026350, 2456956037,
   2730485921, 2820302411, 3259730800, 3345764771, 3516065817,
   3600352804, 4094571909, 275423344, 430227734, 506948616,
   659060556, 883997877, 958139571, 1322822218, 1537002063,
   1747873779, 1955562222, 2024104815, 2227730452, 2361852424,
   2428436474, 2756734187, 3204031479, 3329325298]

/-- The SHA-256 initial hash value. -/
def sha256H0 : List Nat :=
  [1779033703, 3144134277, 1013904242, 2773480762,
   1359893119, 2600822924, 528734635, 1541459225]

/-- `k` big-endian bytes of `n`. -/
def beBytes : Nat → Nat → List Nat
  | 0, _ => []
  | k + 1, n => beBytes k (n / 256) ++ [n % 256]

/-- SHA-256 padding: append `0x80`, zeros to 56 mod 64, then the bit length
as 8 big-endian bytes. -/
def sha256Pad (msg : List Nat) : List Nat :=
  let l := msg.length
  let zeros := (120 - (l + 1) % 64) % 64
  msg ++ [128] ++ List.replicate zeros 0 ++ beBytes 8 (8 * l)

/-- Group bytes into big-endian 32-bit words. -/
def bytesToWords : List Nat → List Nat
  | a :: b :: c :: d :: rest => (((a * 256 + b) * 256 + c) * 256 + d) :: bytesToWords rest
  | _ => []

/-- Extend the 16 words of a block to the 64-entry message schedule. -/
def sha256Schedule (ws : List Nat) : List Nat :=
  (List.range 48).foldl
    (fun w i =>
      let t := i + 16
      w ++ [w32 (ssig1 (w.getD (t - 2) 0) + w.getD (t - 7) 0 +
                 ssig0 (w.getD (t - 15) 0) + w.getD (t - 16) 0)])
    ws

/-- One round of the SHA-256 compression function on the working variables. -/
def sha256Round (w : List Nat) (st : List Nat) (t : Nat) : List Nat :=
  match st with
  | [a, b, c, d, e, f, g, h] =>
    let t1 := w32 (h + sig1 e + chf e f g + sha256K.getD t 0 + w.getD t 0)
    let t2 := w32 (sig0 a + majf a b c)
    [w32 (t1 + t2), a, b, c, w32 (d + t1), e, f, g]
  | other => other

/-- Compress one 16-word block into the running hash value. -/
def sha256Compress (h : List Nat) (block : List Nat) : List Nat :=
  let w := sha256Schedule block
  let st := (List.range 64).foldl (sha256Round w) h
  List.zipWith (fun x y => w32 (x + y)) h st

/-- Split a word list into 16-word blocks (after padding the length is a
multiple of 16; a short trailing group would be dropped). -/
def wordBlocks : List Nat → List (List Nat)
  | w0 :: w1 :: w2 :: w3 :: w4 :: w5 :: w6 :: w7 ::
    w8 :: w9 :: w10 :: w11 :: w12 :: w13 :: w14 :: w15 :: rest =>
      [w0, w1, w2, w3, w4, w5, w6, w7, w8, w9, w10, w11, w12, w13, w14, w15] ::
        wordBlocks rest
  | _ => []

/-- The SHA-256 digest of a byte list, as 32 bytes. -/
def sha256Bytes (msg : List Nat) : List Nat :=
  ((wordBlocks (bytesToWords (sha256Pad msg))).foldl sha256Compress sha256H0).flatMap
    (beBytes 4)

/-- One lowercase hex digit. -/
def hexDigit (n : Nat) : Char :=
  if n < 10 then Char.ofNat (48 + n) else Char.ofNat (87 + n)

/-- Lowercase hex rendering of a byte list (`hexdigest`). -/
def bytesToHex (bs : List Nat) : String :=
  String.mk (bs.flatMap fun b => [hexDigit (b / 16), hexDigit (b % 16)])

/-- `hashlib.sha256(x).hexdigest()` for a UTF-8 string `x`. -/
def sha256HexOfString (s : String) : String :=
  bytesToHex (sha256Bytes (utf8Encode s))

/-! ## `make_cache_key` -/

/-- A SQLAlchemy statement, at the interface `mycachelib` consumes: whether it
is an instance of `Select`, and its textual form `str(statement)` (modeled as
total; `str` on SQLAlchemy clause elements does not raise, so the
`contextlib.suppress` around the textual classification is a no-op here). -/
structure Statement where
  isSelectInstance : Bool
  text : String
deriving DecidableEq

/-- `make_cache_key(statement, params, prefix)`: the SHA-256 hex digest of
`str(statement) + "|" + repr(params)`, prefixed with the namespace and a
colon.  The namespace argument (Python keyword `prefix`, default
`"sqlcache"`) is `pre` here. -/
def make_cache_key (statement : Statement) (params : Params) (pre : String) : String :=
  let sql_text := statement.text
  let raw := sql_text ++ "|" ++ reprParams params
  let digest := sha256HexOfString raw
  pre ++ ":" ++ digest

/-! ## Python string helpers for classification -/

/-- `str.lower()` (ASCII range, which covers SQL text). -/
def pyLower (s : String) : String := String.mk (s.data.map Char.toLower)

/-- `str.strip()`: drop leading and trailing whitespace (ASCII whitespace,
which covers SQL text). -/
def pyStrip (s : String) : String :=
  String.mk (((s.data.dropWhile Char.isWhitespace).reverse.dropWhile
    Char.isWhitespace).reverse)

/-- `str.startswith(pre)`. -/
def pyStartsWith (s pre : String) : Bool := pre.data.isPrefixOf s.data

/-- The SELECT classification of `execute` (source lines 52–57):
`isinstance(statement, Select)`, or else the stripped lowercased text starts
with `"select"`. -/
def classifyIsSelect (statement : Statement) : Bool :=
  statement.isSelectInstance || pyStartsWith (pyLower (pyStrip statement.text)) "select"

/-! ## Payloads and result materialization -/

/-- A record: one row serialized as a flat attribute-to-scalar mapping. -/
abbrev PyRecord := List (String × PVal)

/-- An object produced by `result.scalars().all()`: either an ORM-mapped
entity (it has `__mapper__`; its column serialization
`{attr.key: getattr(obj, attr.key) for attr in sa_inspect(obj).mapper.column_attrs}`
may itself raise, hence `Except`), or a bare scalar. -/
inductive Obj where
  | orm : Except Unit PyRecord → Obj
  | prim : PVal → Obj

/-- One element of a cached payload: either an object kept as-is (the
`list(scalars_list)` branch) or a serialized record. -/
inductive Item where
  | ofObj : Obj → Item
  | ofRecord : PyRecord → Item

/-- A materialized payload: the list `execute` caches and returns on a miss. -/
abbrev Payload := List Item

/-- The store result at the interface `execute` consumes: the two
introspection calls it makes, each fallible. -/
structure RawResult where
  scalarsAll : Except Unit (List Obj)
  mappingsAll : Except Unit (List PyRecord)

/-- `hasattr(first, "__mapper__")`. -/
def hasMapper : Obj → Bool
  | .orm _ => true
  | .prim _ => false

/-- Column serialization of one object; `sa_inspect` raises on a non-ORM
value. -/
def serializeObj : Obj → Except Unit PyRecord
  | .orm cols => cols
  | .prim _ => .error ()

/-- The ORM list comprehension: serialize every object, raising as soon as
one of them does. -/
def serializeAll : List Obj → Except Unit (List PyRecord)
  | [] => .ok []
  | o :: rest =>
    match serializeObj o with
    | .error e => .error e
    | .ok r =>
      match serializeAll rest with
      | .error e => .error e
      | .ok rs => .ok (r :: rs)

/-- The shared fallback `rows = result.mappings().all(); payload = [dict(r)
for r in rows]`, degrading to `[]` if it raises (both the inner and the outer
`except` branch of the source run exactly this). -/
def mappingsFallback (result : RawResult) : Payload :=
  match result.mappingsAll with
  | .ok rows => rows.map Item.ofRecord
  | .error _ => []

/-- Materialization (source lines 92–120): scalars first; a nonempty scalar
list is serialized per-column when ORM-mapped (degrading to `[]` if that
raises) and kept as-is when primitive; an empty scalar list or a raising
`scalars().all()` falls back to `mappings().all()`, degrading to `[]`. -/
def materialize (result : RawResult) : Payload :=
  match result.scalarsAll with
  | .error _ => mappingsFallback result
  | .ok [] => mappingsFallback result
  | .ok (first :: rest) =>
    if hasMapper first then
      match serializeAll (first :: rest) with
      | .ok recs => recs.map Item.ofRecord
      | .error _ => []
    else
      (first :: rest).map Item.ofObj

/-! ## Python dict operations (insertion-ordered association lists) -/

/-- `d.get(key)` / `d.get(key)` returning `None` when absent. -/
def dictGet {α : Type} : List (String × α) → String → Option α
  | [], _ => none
  | (k, v) :: rest, key => if k = key then some v else dictGet rest key

/-- `d.pop(key, None)`: remove the entry if present. -/
def dictPop {α : Type} : List (String × α) → String → List (String × α)
  | [], _ => []
  | (k, v) :: rest, key => if k = key then rest else (k, v) :: dictPop rest key

/-- `d[key] = v`: update in place, or append a new entry. -/
def dictSet {α : Type} : List (String × α) → String → α → List (String × α)
  | [], key, v => [(key, v)]
  | (k, w) :: rest, key, v =>
    if k = key then (k, v) :: rest else (k, w) :: dictSet rest key v

/-! ## The cached session and its oracles -/

/-- The mutable state of a `CachedAsyncSession` (source lines 31–46):
namespace, default TTL, the last-call-origin flag, and the local fallback
cache `{key: (payload, expiry_ts)}`.  Clock readings are naturals. -/
structure Session where
  cachePre : String
  ttl : Nat
  lastFromCache : Option Bool
  localCache : List (String × (Payload × Nat))

/-- The external collaborators of one `execute` call.  `redisGet` is
`await self._redis.get(key)` — `.error` is a raised exception, `.ok none` a
miss, `.ok (some p)` a hit whose bytes unpickle to `p` (pickled payloads are
nonempty bytes, so a stored value is always truthy).  `redisSetFails` says
whether `await self._redis.set(...)` raises; `execute` suppresses it either
way.  `store` is the outcome of `await super().execute(statement,
params=params, **kwargs)`. -/
structure Oracles where
  redisGet : String → Except Unit (Option Payload)
  redisSetFails : Bool
  store : Except Unit RawResult

/-- What one `execute` call returns: the store result unchanged (bypass
path), or a payload (cached path). -/
inductive Outcome where
  | raw : RawResult → Outcome
  | payload : Payload → Outcome

/-- The full observable effect of one `execute` call: its return value or
raised exception, the session state afterwards, the keys read from the
remote tier, the attempted remote write `(key, payload, ttl)` if any, and
whether the store was executed. -/
structure ExecOut where
  result : Except Unit Outcome
  state : Session
  remoteGets : List String
  remoteSet : Option (String × Payload × Nat)
  storeCalled : Bool

/-- The miss path of `execute` (source lines 86–128), entered with the
session state as already mutated by lazy eviction: run the store (a raised
`StoreExecutionFailure` propagates), flag the call DB-served, materialize,
attempt the remote write with the configured TTL (failure suppressed), and
unconditionally write the local tier with expiry `tStore + ttl`. -/
def executeMiss (S : Session) (o : Oracles) (key : String) (tStore : Nat) : ExecOut :=
  match o.store with
  | .error e =>
    { result := .error e, state := S, remoteGets := [key],
      remoteSet := none, storeCalled := true }
  | .ok result =>
    let S1 : Session := { S with lastFromCache := some false }
    let payload := materialize result
    let S2 : Session :=
      { S1 with localCache := dictSet S1.localCache key (payload, tStore + S1.ttl) }
    { result := .ok (.payload payload), state := S2, remoteGets := [key],
      remoteSet := some (key, payload, S1.ttl), storeCalled := true }

/-- `CachedAsyncSession.execute` (source lines 48–128).  `tCheck` is the
`time.time()` reading at the local-expiry comparison, `tStore` the one at the
local write.  Non-SELECT statements bypass the cache; otherwise the remote
tier is consulted (exceptions swallowed into a miss), then the local tier
(entries honored only while `expiry > now`, expired entries popped), then the
store. -/
def execute (S : Session) (o : Oracles) (statement : Statement)
    (params : Option Params) (tCheck tStore : Nat) : ExecOut :=
  let ps := params.getD []
  if ¬ classifyIsSelect statement then
    { result := (o.store).map Outcome.raw, state := S, remoteGets := [],
      remoteSet := none, storeCalled := true }
  else
    let key := make_cache_key statement ps S.cachePre
    let cached : Option Payload :=
      match o.redisGet key with
      | .error _ => none
      | .ok c => c
    match cached with
    | some payload =>
      { result := .ok (.payload payload),
        state := { S with lastFromCache := some true },
        remoteGets := [key], remoteSet := none, storeCalled := false }
    | none =>
      match dictGet S.localCache key with
      | some (payload, expiry) =>
        if tCheck < expiry then
          { result := .ok (.payload payload),
            state := { S with lastFromCache := some true },
            remoteGets := [key], remoteSet := none, storeCalled := false }
        else
          executeMiss { S with localCache := dictPop S.localCache key } o key tStore
      | none => executeMiss S o key tStore

/-! ## `clear_cache` and the namespace clear shared with the listener -/

/-- The remote client surface used by namespace clearing: `keys(pattern)` and
`delete(*keys)`, both fallible. -/
structure RemoteAdmin where
  keys : String → Except Unit (List String)
  del : List String → Except Unit Nat

/-- Outcome of a namespace clear: the returned-or-raised value, and the keys
whose deletion the remote tier acknowledged. -/
structure ClearOut where
  result : Except Unit Unit
  deleted : List String

/-- The namespace clear `keys(f"{pre}:*")` then `delete(*keys)` if any —
the body of both `CachedAsyncSession.clear_cache` (source lines 130–134) and
the listener task `_clear_cache` (source lines 141–144).  No exception is
suppressed here. -/
def clearNamespace (pre : String) (r : RemoteAdmin) : ClearOut :=
  match r.keys (pre ++ ":*") with
  | .error e => { result := .error e, deleted := [] }
  | .ok ks =>
    if ks.isEmpty then { result := .ok (), deleted := [] }
    else
      match r.del ks with
      | .error e => { result := .error e, deleted := [] }
      | .ok _ => { result := .ok (), deleted := ks }

/-- `CachedAsyncSession.clear_cache`: the namespace clear against the
session's own client and namespace; the session state is untouched. -/
def clear_cache (S : Session) (r : RemoteAdmin) : ClearOut × Session :=
  (clearNamespace S.cachePre r, S)

/-! ## The write-invalidation listener (`register_simple_invalidation`) -/

/-- The environment one `_after_execute` hook invocation runs in:
`str(clauseelement)` (may raise), `asyncio.get_running_loop()` (raises when
no loop is running), and `loop.create_task(...)` (may raise). -/
structure ListenerEnv where
  clauseText : Except Unit String
  loopOk : Except Unit Unit
  createTaskOk : Except Unit Unit

/-- The WRITE classification of the listener (source line 150):
`txt.startswith(("insert", "update", "delete"))` on the stripped lowercased
clause text. -/
def isWriteText (t : String) : Bool :=
  let txt := pyLower (pyStrip t)
  pyStartsWith txt "insert" || pyStartsWith txt "update" || pyStartsWith txt "delete"

/-- The body of `_after_execute` without its `contextlib.suppress`: classify
the clause text, and on a WRITE schedule the `_clear_cache` task; the `Bool`
says whether a task was scheduled. -/
def afterExecuteBody (env : ListenerEnv) : Except Unit Bool :=
  match env.clauseText with
  | .error e => .error e
  | .ok t =>
    if isWriteText t then
      match env.loopOk with
      | .error e => .error e
      | .ok _ =>
        match env.createTaskOk with
        | .error e => .error e
        | .ok _ => .ok true
    else .ok false

/-- `_after_execute` (source lines 146–152): the body wrapped in
`contextlib.suppress(Exception)` — a raised exception leaves the hook with no
task scheduled and nothing propagated. -/
def after_execute (env : ListenerEnv) : Except Unit Bool :=
  match afterExecuteBody env with
  | .ok b => .ok b
  | .error _ => .ok false

/-! ## Threading remote-cache state across calls -/

/-- A functional remote tier for multi-call scenarios: a healthy Redis whose
`get` never raises and returns exactly what was last `set`. -/
def remoteOracles (remote : List (String × Payload)) (st : Except Unit RawResult) :
    Oracles :=
  { redisGet := fun k => .ok (dictGet remote k), redisSetFails := false, store := st }

/-- Apply the remote write attempted by a call to the functional remote tier
(a healthy Redis stores it; the TTL is irrelevant to an immediate re-read). -/
def applyRemoteSet (remote : List (String × Payload)) :
    Option (String × Payload × Nat) → List (String × Payload)
  | none => remote
  | some (k, p, _) => dictSet remote k p

/-- The read-through scenario of two successive identical reads: the first
call runs against a functional remote tier; the remote write it attempts is
applied to that tier; the second call then runs on the updated session state
and remote tier.  The store returns `raw` whenever consulted. -/
def twoReads (S : Session) (remote : List (String × Payload)) (stmt : Statement)
    (params : Option Params) (raw : RawResult) (t1 t1s t2 t2s : Nat) :
    ExecOut × ExecOut :=
  let out1 := execute S (remoteOracles remote (.ok raw)) stmt params t1 t1s
  let out2 := execute out1.state
    (remoteOracles (applyRemoteSet remote out1.remoteSet) (.ok raw)) stmt params t2 t2s
  (out1, out2)

/-! ## Concrete sample inputs for witnesses and counterexamples -/

deriving instance DecidableEq for Except

deriving instance DecidableEq for Obj

deriving instance DecidableEq for Item

deriving instance DecidableEq for RawResult

deriving instance DecidableEq for Outcome

deriving instance DecidableEq for Session

deriving instance DecidableEq for ExecOut

/-- A fresh session with the source defaults. -/
def sampleSession : Session :=
  { cachePre := "sqlcache", ttl := 60, lastFromCache := none, localCache := [] }

/-- A session whose last-call-origin flag currently reads cache-served. -/
def flagSession : Session :=
  { cachePre := "sqlcache", ttl := 60, lastFromCache := some true, localCache := [] }

/-- A `Select` statement instance. -/
def sampleSelect : Statement := { isSelectInstance := true, text := "SELECT u" }

/-- A write statement (not a `Select`, text classifying as WRITE). -/
def sampleInsert : Statement :=
  { isSelectInstance := false, text := "INSERT INTO users VALUES (1)" }

/-- A store result holding one scalar row, whose introspection works. -/
def sampleRaw : RawResult :=
  { scalarsAll := .ok [Obj.prim (PVal.pint 7)], mappingsAll := .error () }

/-- A store result whose every structural introspection raises. -/
def badRaw : RawResult :=
  { scalarsAll := .error (), mappingsAll := .error () }

/-- Oracles for an empty but healthy remote tier. -/
def missOracles (st : Except Unit RawResult) : Oracles :=
  { redisGet := fun _ => .ok none, redisSetFails := false, store := st }

/-- A listener environment for a completed DELETE with a running loop. -/
def writeEnv : ListenerEnv :=
  { clauseText := .ok "DELETE FROM users", loopOk := .ok (), createTaskOk := .ok () }

/-- A healthy remote admin surface holding one namespaced key. -/
def sampleAdmin : RemoteAdmin :=
  { keys := fun _ => .ok ["sqlcache:k1"], del := fun _ => .ok 1 }

/-- A remote admin surface whose every call raises. -/
def failAdmin : RemoteAdmin :=
  { keys := fun _ => .error (), del := fun _ => .error () }

/-- Oracles for a remote tier that always raises (cache down). -/
def downOracles (st : Except Unit RawResult) : Oracles :=
  { redisGet := fun _ => .error (), redisSetFails := true, store := st }

/-! ## Path characterization lemmas for `execute` -/

/-- Looking up the key just written finds the written value. -/
theorem dictGet_dictSet_self {α : Type} (l : List (String × α)) (k : String) (v : α) :
    dictGet (dictSet l k v) k = some v := by
  induction l with
  | nil => simp [dictGet, dictSet]
  | cons hd tl ih =>
    obtain ⟨k1, v1⟩ := hd
    by_cases hk : k1 = k <;> simp [dictGet, dictSet, hk, ih]

/-- The non-SELECT path: straight to the store, no cache interaction, state
untouched. -/
theorem execute_not_select (S : Session) (o : Oracles) (stmt : Statement)
    (params : Option Params) (t1 t2 : Nat) (h : classifyIsSelect stmt = false) :
    execute S o stmt params t1 t2 =
      { result := (o.store).map Outcome.raw, state := S, remoteGets := [],
        remoteSet := none, storeCalled := true } := by
  simp [execute, h]

/-- The remote-hit path: the payload comes back at once. -/
theorem execute_remote_hit (S : Session) (o : Oracles) (stmt : Statement)
    (params : Option Params) (t1 t2 : Nat) (p : Payload)
    (hsel : classifyIsSelect stmt = true)
    (hr : o.redisGet (make_cache_key stmt (params.getD []) S.cachePre) = .ok (some p)) :
    execute S o stmt params t1 t2 =
      { result := .ok (.payload p), state := { S with lastFromCache := some true },
        remoteGets := [make_cache_key stmt (params.getD []) S.cachePre],
        remoteSet := none, storeCalled := false } := by
  simp [execute, hsel, hr]

/-- The local-hit path: remote missed or raised, the local entry is fresh. -/
theorem execute_local_hit (S : Session) (o : Oracles) (stmt : Statement)
    (params : Option Params) (t1 t2 : Nat) (p : Payload) (e : Nat)
    (hsel : classifyIsSelect stmt = true)
    (hr : o.redisGet (make_cache_key stmt (params.getD []) S.cachePre) = .ok none ∨
          o.redisGet (make_cache_key stmt (params.getD []) S.cachePre) = .error ())
    (hl : dictGet S.localCache (make_cache_key stmt (params.getD []) S.cachePre) =
          some (p, e))
    (ht : t1 < e) :
    execute S o stmt params t1 t2 =
      { result := .ok (.payload p), state := { S with lastFromCache := some true },
        remoteGets := [make_cache_key stmt (params.getD []) S.cachePre],
        remoteSet := none, storeCalled := false } := by
  rcases hr with hr | hr <;> simp [execute, hsel, hr, hl, ht]

/-- The miss path with no local entry. -/
theorem execute_miss_absent (S : Session) (o : Oracles) (stmt : Statement)
    (params : Option Params) (t1 t2 : Nat)
    (hsel : classifyIsSelect stmt = true)
    (hr : o.redisGet (make_cache_key stmt (params.getD []) S.cachePre) = .ok none ∨
          o.redisGet (make_cache_key stmt (params.getD []) S.cachePre) = .error ())
    (hl : dictGet S.localCache (make_cache_key stmt (params.getD []) S.cachePre) = none) :
    execute S o stmt params t1 t2 =
      executeMiss S o (make_cache_key stmt (params.getD []) S.cachePre) t2 := by
  rcases hr with hr | hr <;> simp [execute, hsel, hr, hl]

/-- The miss path with an expired local entry: the entry is popped first
(lazy eviction), then the store is hit. -/
theorem execute_miss_expired (S : Session) (o : Oracles) (stmt : Statement)
    (params : Option Params) (t1 t2 : Nat) (p : Payload) (e : Nat)
    (hsel : classifyIsSelect stmt = true)
    (hr : o.redisGet (make_cache_key stmt (params.getD []) S.cachePre) = .ok none ∨
          o.redisGet (make_cache_key stmt (params.getD []) S.cachePre) = .error ())
    (hl : dictGet S.localCache (make_cache_key stmt (params.getD []) S.cachePre) =
          some (p, e))
    (ht : e ≤ t1) :
    execute S o stmt params t1 t2 =
      executeMiss
        { S with localCache :=
            dictPop S.localCache (make_cache_key stmt (params.getD []) S.cachePre) }
        o (make_cache_key stmt (params.getD []) S.cachePre) t2 := by
  rcases hr with hr | hr <;> simp [execute, hsel, hr, hl, Nat.not_lt.mpr ht]

/-- The miss path when the store succeeds: DB-served flag, materialized
payload returned, remote write attempted with the configured TTL, local write
with expiry `tStore + ttl`. -/
theorem executeMiss_ok (S : Session) (o : Oracles) (key : String) (t2 : Nat)
    (raw : RawResult) (hstore : o.store = .ok raw) :
    executeMiss S o key t2 =
      { result := .ok (.payload (materialize raw)),
        state :=
          { cachePre := S.cachePre, ttl := S.ttl, lastFromCache := some false,
            localCache := dictSet S.localCache key (materialize raw, t2 + S.ttl) },
        remoteGets := [key],
        remoteSet := some (key, materialize raw, S.ttl), storeCalled := true } := by
  simp [executeMiss, hstore]

/-- The miss path when the store raises: the exception propagates, the state
keeps only the eviction already done. -/
theorem executeMiss_err (S : Session) (o : Oracles) (key : String) (t2 : Nat)
    (e : Unit) (hstore : o.store = .error e) :
    executeMiss S o key t2 =
      { result := .error e, state := S, remoteGets := [key],
        remoteSet := none, storeCalled := true } := by
  simp [executeMiss, hstore]

/-- FIPS 180-4 test vector: the digest of the empty message. -/
theorem sha256_empty_vector : sha256HexOfString "" =
    "e3b0c44298fc1c149afbf4c8996fb92427ae41e4649b934ca495991b7852b855" := by
  decide

/-- FIPS 180-4 test vector: the digest of "abc". -/
theorem sha256_abc_vector : sha256HexOfString "abc" =
    "ba7816bf8f01cfea414140de5dae2223b00361a396177a9cb410ff61f20015ad" := by
  decide

/-- C1: on a READ query, a remote-cache failure during lookup is swallowed
and treated as a miss: the only exception `execute` can raise is the store's
own, and with a remote tier that always raises, a read with a working store
still returns a payload. -/
theorem C1_remote_failure_is_miss (S : Session) (o : Oracles) (stmt : Statement)
    (params : Option Params) (t1 t2 : Nat)
    (hsel : classifyIsSelect stmt = true) :
    (∀ e, (execute S o stmt params t1 t2).result = Except.error e →
       o.store = Except.error e) ∧
    (∀ raw, (∀ k, o.redisGet k = Except.error ()) → o.store = Except.ok raw →
       ∃ p, (execute S o stmt params t1 t2).result = Except.ok (Outcome.payload p)) := by
  constructor
  · intro e he
    rcases hg : o.redisGet (make_cache_key stmt (params.getD []) S.cachePre)
      with u | (_ | p)
    · cases u
      rcases hl : dictGet S.localCache (make_cache_key stmt (params.getD []) S.cachePre)
        with _ | ⟨p, ex⟩
      · rw [execute_miss_absent S o stmt params t1 t2 hsel (Or.inr hg) hl] at he
        rcases hs : o.store with u | raw
        · cases u; cases e; rfl
        · rw [executeMiss_ok S o _ t2 raw hs] at he; simp at he
      · by_cases ht : t1 < ex
        · rw [execute_local_hit S o stmt params t1 t2 p ex hsel (Or.inr hg) hl ht] at he
          simp at he
        · rw [execute_miss_expired S o stmt params t1 t2 p ex hsel (Or.inr hg) hl
            (Nat.le_of_not_lt ht)] at he
          rcases hs : o.store with u | raw
          · cases u; cases e; rfl
          · rw [executeMiss_ok _ o _ t2 raw hs] at he; simp at he
    · rcases hl : dictGet S.localCache (make_cache_key stmt (params.getD []) S.cachePre)
        with _ | ⟨p, ex⟩
      · rw [execute_miss_absent S o stmt params t1 t2 hsel (Or.inl hg) hl] at he
        rcases hs : o.store with u | raw
        · cases u; cases e; rfl
        · rw [executeMiss_ok S o _ t2 raw hs] at he; simp at he
      · by_cases ht : t1 < ex
        · rw [execute_local_hit S o stmt params t1 t2 p ex hsel (Or.inl hg) hl ht] at he
          simp at he
        · rw [execute_miss_expired S o stmt params t1 t2 p ex hsel (Or.inl hg) hl
            (Nat.le_of_not_lt ht)] at he
          rcases hs : o.store with u | raw
          · cases u; cases e; rfl
          · rw [executeMiss_ok _ o _ t2 raw hs] at he; simp at he
    · rw [execute_remote_hit S o stmt params t1 t2 p hsel hg] at he
      simp at he
  · intro raw hdown hstore
    have hg : o.redisGet (make_cache_key stmt (params.getD []) S.cachePre) =
        Except.error () := hdown _
    rcases hl : dictGet S.localCache (make_cache_key stmt (params.getD []) S.cachePre)
      with _ | ⟨p, ex⟩
    · rw [execute_miss_absent S o stmt params t1 t2 hsel (Or.inr hg) hl,
        executeMiss_ok S o _ t2 raw hstore]
      exact ⟨materialize raw, rfl⟩
    · by_cases ht : t1 < ex
      · rw [execute_local_hit S o stmt params t1 t2 p ex hsel (Or.inr hg) hl ht]
        exact ⟨p, rfl⟩
      · rw [execute_miss_expired S o stmt params t1 t2 p ex hsel (Or.inr hg) hl
          (Nat.le_of_not_lt ht), executeMiss_ok _ o _ t2 raw hstore]
        exact ⟨materialize raw, rfl⟩

/-- Witness for C1 at a concrete instance: an always-raising remote tier,
a working store, a `Select` statement. -/
theorem C1_witness :
    (∀ e, (execute sampleSession (downOracles (.ok sampleRaw)) sampleSelect none 0 0).result =
        Except.error e → (downOracles (.ok sampleRaw)).store = Except.error e) ∧
    (∀ raw, (∀ k, (downOracles (.ok sampleRaw)).redisGet k = Except.error ()) →
       (downOracles (.ok sampleRaw)).store = Except.ok raw →
       ∃ p, (execute sampleSession (downOracles (.ok sampleRaw)) sampleSelect none 0 0).result =
         Except.ok (Outcome.payload p)) :=
  C1_remote_failure_is_miss sampleSession (downOracles (.ok sampleRaw)) sampleSelect none 0 0 rfl

/-- C4: a statement that is not a `Select` instance and whose stripped
lowercased text does not start with "select" bypasses caching entirely: no
remote read, no remote or local write, the session state is untouched, and
the store's native result (or raised exception) is returned unchanged. -/
theorem C4_bypass_non_read (S : Session) (o : Oracles) (stmt : Statement)
    (params : Option Params) (t1 t2 : Nat)
    (hinst : stmt.isSelectInstance = false)
    (htext : pyStartsWith (pyLower (pyStrip stmt.text)) "select" = false) :
    (execute S o stmt params t1 t2).result = (o.store).map Outcome.raw ∧
    (execute S o stmt params t1 t2).state = S ∧
    (execute S o stmt params t1 t2).remoteGets = [] ∧
    (execute S o stmt params t1 t2).remoteSet = none ∧
    (execute S o stmt params t1 t2).storeCalled = true := by
  have h : classifyIsSelect stmt = false := by
    simp [classifyIsSelect, hinst, htext]
  rw [execute_not_select S o stmt params t1 t2 h]
  exact ⟨rfl, rfl, rfl, rfl, rfl⟩

/-- C5 counterexample: on a miss, the value handed to the caller is the
materialized payload, not the native store result — so when structural
introspection fails the caller receives the degraded empty payload, while
with working introspection the same call would have returned the row: the
caller-visible result IS affected by the materialization failure, and is
never the store result itself. -/
theorem C5_counterexample :
    (execute sampleSession (missOracles (.ok badRaw)) sampleSelect none 0 0).result =
      .ok (.payload []) ∧
    (execute sampleSession (missOracles (.ok sampleRaw)) sampleSelect none 0 0).result =
      .ok (.payload [Item.ofObj (Obj.prim (PVal.pint 7))]) ∧
    (Except.ok (Outcome.payload []) : Except Unit Outcome) ≠
      Except.ok (Outcome.raw badRaw) := by
  exact ⟨by decide, by decide, by decide⟩

/-- C5 (amended): on a READ miss whose store call succeeds but whose result
introspection fails everywhere, `execute` does not raise and the payload
degrades to the empty payload; the call still completes DB-served.  (The
caller receives this materialized payload — the store's native result is not
what a cached-path call returns.) -/
theorem C5_materialization_failure (S : Session) (o : Oracles) (stmt : Statement)
    (params : Option Params) (t1 t2 : Nat) (raw : RawResult)
    (hsel : classifyIsSelect stmt = true)
    (hr : o.redisGet (make_cache_key stmt (params.getD []) S.cachePre) = .ok none ∨
          o.redisGet (make_cache_key stmt (params.getD []) S.cachePre) = .error ())
    (hl : dictGet S.localCache (make_cache_key stmt (params.getD []) S.cachePre) = none ∨
          ∃ p e, dictGet S.localCache (make_cache_key stmt (params.getD []) S.cachePre) =
            some (p, e) ∧ e ≤ t1)
    (hstore : o.store = .ok raw)
    (hscal : raw.scalarsAll = .error ())
    (hmaps : raw.mappingsAll = .error ()) :
    (execute S o stmt params t1 t2).result = .ok (.payload []) ∧
    (execute S o stmt params t1 t2).state.lastFromCache = some false := by
  have hmat : materialize raw = [] := by
    simp [materialize, hscal, mappingsFallback, hmaps]
  rcases hl with hl | ⟨p, ex, hl, ht⟩
  · rw [execute_miss_absent S o stmt params t1 t2 hsel hr hl,
      executeMiss_ok S o _ t2 raw hstore]
    simp [hmat]
  · rw [execute_miss_expired S o stmt params t1 t2 p ex hsel hr hl ht,
      executeMiss_ok _ o _ t2 raw hstore]
    simp [hmat]

/-- Witness for C5 (amended) at a concrete instance: empty caches, a store
result whose introspection always raises. -/
theorem C5_witness :
    (execute sampleSession (missOracles (.ok badRaw)) sampleSelect none 0 0).result =
      .ok (.payload []) ∧
    (execute sampleSession (missOracles (.ok badRaw)) sampleSelect none 0 0).state.lastFromCache =
      some false :=
  C5_materialization_failure sampleSession (missOracles (.ok badRaw)) sampleSelect none 0 0
    badRaw rfl (Or.inl rfl) (Or.inl rfl) rfl rfl rfl

/-- C6: on every cache write after a miss, the remote `set` is attempted with
the key, the materialized payload and the configured TTL; the local tier is
written with expiry `now + ttl`; and the whole call is insensitive to whether
the remote `set` raises (the failure is suppressed), so the payload is
locally cached even when the remote tier is down. -/
theorem C6_cache_write_after_miss (S : Session) (o : Oracles) (stmt : Statement)
    (params : Option Params) (t1 t2 : Nat) (raw : RawResult)
    (hsel : classifyIsSelect stmt = true)
    (hr : o.redisGet (make_cache_key stmt (params.getD []) S.cachePre) = .ok none ∨
          o.redisGet (make_cache_key stmt (params.getD []) S.cachePre) = .error ())
    (hl : dictGet S.localCache (make_cache_key stmt (params.getD []) S.cachePre) = none ∨
          ∃ p e, dictGet S.localCache (make_cache_key stmt (params.getD []) S.cachePre) =
            some (p, e) ∧ e ≤ t1)
    (hstore : o.store = .ok raw) :
    (execute S o stmt params t1 t2).remoteSet =
      some (make_cache_key stmt (params.getD []) S.cachePre, materialize raw, S.ttl) ∧
    dictGet (execute S o stmt params t1 t2).state.localCache
        (make_cache_key stmt (params.getD []) S.cachePre) =
      some (materialize raw, t2 + S.ttl) ∧
    (∀ b, execute S { redisGet := o.redisGet, redisSetFails := b, store := o.store }
        stmt params t1 t2 = execute S o stmt params t1 t2) := by
  refine ⟨?_, ?_, fun b => rfl⟩
  · rcases hl with hl | ⟨p, ex, hl, ht⟩
    · rw [execute_miss_absent S o stmt params t1 t2 hsel hr hl,
        executeMiss_ok S o _ t2 raw hstore]
    · rw [execute_miss_expired S o stmt params t1 t2 p ex hsel hr hl ht,
        executeMiss_ok _ o _ t2 raw hstore]
  · rcases hl with hl | ⟨p, ex, hl, ht⟩
    · rw [execute_miss_absent S o stmt params t1 t2 hsel hr hl,
        executeMiss_ok S o _ t2 raw hstore]
      exact dictGet_dictSet_self _ _ _
    · rw [execute_miss_expired S o stmt params t1 t2 p ex hsel hr hl ht,
        executeMiss_ok _ o _ t2 raw hstore]
      exact dictGet_dictSet_self _ _ _

/-- Witness for C6 at a concrete instance: empty caches, working store. -/
theorem C6_witness :
    (execute sampleSession (missOracles (.ok sampleRaw)) sampleSelect none 0 0).remoteSet =
      some (make_cache_key sampleSelect [] "sqlcache", materialize sampleRaw, 60) ∧
    dictGet (execute sampleSession (missOracles (.ok sampleRaw)) sampleSelect none 0 0).state.localCache
        (make_cache_key sampleSelect [] "sqlcache") =
      some (materialize sampleRaw, 0 + 60) ∧
    (∀ b, execute sampleSession
        { redisGet := (missOracles (.ok sampleRaw)).redisGet, redisSetFails := b,
          store := (missOracles (.ok sampleRaw)).store } sampleSelect none 0 0 =
      execute sampleSession (missOracles (.ok sampleRaw)) sampleSelect none 0 0) :=
  C6_cache_write_after_miss sampleSession (missOracles (.ok sampleRaw)) sampleSelect none 0 0
    sampleRaw rfl (Or.inl rfl) (Or.inl rfl) rfl

/-- C7: cache lookup order — a remote hit returns at once (no store call, the
local tier untouched); on remote miss or remote failure a local entry is
honored exactly when its expiry is strictly in the future; an expired local
entry falls through to the store and is lazily evicted; with nothing local
the call falls through to the store. -/
theorem C7_tier_order (S : Session) (o : Oracles) (stmt : Statement)
    (params : Option Params) (t1 t2 : Nat)
    (hsel : classifyIsSelect stmt = true) :
    (∀ p, o.redisGet (make_cache_key stmt (params.getD []) S.cachePre) = .ok (some p) →
       (execute S o stmt params t1 t2).result = .ok (.payload p) ∧
       (execute S o stmt params t1 t2).storeCalled = false ∧
       (execute S o stmt params t1 t2).state.localCache = S.localCache) ∧
    (∀ p ex, (o.redisGet (make_cache_key stmt (params.getD []) S.cachePre) = .ok none ∨
         o.redisGet (make_cache_key stmt (params.getD []) S.cachePre) = .error ()) →
       dictGet S.localCache (make_cache_key stmt (params.getD []) S.cachePre) =
         some (p, ex) → t1 < ex →
       (execute S o stmt params t1 t2).result = .ok (.payload p) ∧
       (execute S o stmt params t1 t2).storeCalled = false) ∧
    (∀ p ex, (o.redisGet (make_cache_key stmt (params.getD []) S.cachePre) = .ok none ∨
         o.redisGet (make_cache_key stmt (params.getD []) S.cachePre) = .error ()) →
       dictGet S.localCache (make_cache_key stmt (params.getD []) S.cachePre) =
         some (p, ex) → ex ≤ t1 →
       (execute S o stmt params t1 t2).storeCalled = true ∧
       (o.store = .error () →
         (execute S o stmt params t1 t2).state.localCache =
           dictPop S.localCache (make_cache_key stmt (params.getD []) S.cachePre))) ∧
    ((o.redisGet (make_cache_key stmt (params.getD []) S.cachePre) = .ok none ∨
        o.redisGet (make_cache_key stmt (params.getD []) S.cachePre) = .error ()) →
      dictGet S.localCache (make_cache_key stmt (params.getD []) S.cachePre) = none →
      (execute S o stmt params t1 t2).storeCalled = true) := by
  refine ⟨?_, ?_, ?_, ?_⟩
  · intro p hg
    rw [execute_remote_hit S o stmt params t1 t2 p hsel hg]
    exact ⟨rfl, rfl, rfl⟩
  · intro p ex hr hl ht
    rw [execute_local_hit S o stmt params t1 t2 p ex hsel hr hl ht]
    exact ⟨rfl, rfl⟩
  · intro p ex hr hl ht
    rw [execute_miss_expired S o stmt params t1 t2 p ex hsel hr hl ht]
    constructor
    · rcases hs : o.store with u | raw
      · cases u; rw [executeMiss_err _ o _ t2 () hs]
      · rw [executeMiss_ok _ o _ t2 raw hs]
    · intro hserr
      rw [executeMiss_err _ o _ t2 () hserr]
  · intro hr hl
    rw [execute_miss_absent S o stmt params t1 t2 hsel hr hl]
    rcases hs : o.store with u | raw
    · cases u; rw [executeMiss_err S o _ t2 () hs]
    · rw [executeMiss_ok S o _ t2 raw hs]

/-- Witness for C7 at a concrete instance: a stored remote payload is served
even though the store would raise. -/
theorem C7_witness :
    (execute sampleSession
        { redisGet := fun _ => .ok (some [Item.ofObj (Obj.prim (PVal.pint 7))]),
          redisSetFails := false, store := .error () } sampleSelect none 0 0).result =
      .ok (.payload [Item.ofObj (Obj.prim (PVal.pint 7))]) ∧
    (execute sampleSession
        { redisGet := fun _ => .ok (some [Item.ofObj (Obj.prim (PVal.pint 7))]),
          redisSetFails := false, store := .error () } sampleSelect none 0 0).storeCalled =
      false ∧
    (execute sampleSession
        { redisGet := fun _ => .ok (some [Item.ofObj (Obj.prim (PVal.pint 7))]),
          redisSetFails := false, store := .error () } sampleSelect none 0 0).state.localCache =
      sampleSession.localCache :=
  (C7_tier_order sampleSession
    { redisGet := fun _ => .ok (some [Item.ofObj (Obj.prim (PVal.pint 7))]),
      redisSetFails := false, store := .error () } sampleSelect none 0 0 rfl).1
    [Item.ofObj (Obj.prim (PVal.pint 7))] rfl

/-- C8 counterexample: a bypass (non-SELECT) call is served by the store, yet
it leaves the last-call-origin flag untouched — here the flag still reads
`some true` after a store-served INSERT, where the claim requires `some
false` for that call. -/
theorem C8_counterexample :
    (execute flagSession (missOracles (.ok sampleRaw)) sampleInsert none 0 0).storeCalled =
      true ∧
    (execute flagSession (missOracles (.ok sampleRaw)) sampleInsert none 0 0).state.lastFromCache =
      some true ∧
    (some true : Option Bool) ≠ some false := by
  exact ⟨rfl, rfl, by decide⟩

/-- C8 (amended): only cached-path calls update the last-call-origin flag —
a cache hit sets it `some true` and a store-served miss that returns sets it
`some false`; a bypass (non-SELECT) call and a call in which the store raises
leave the flag exactly as it was. -/
theorem C8_origin_flag (S : Session) (o : Oracles) (stmt : Statement)
    (params : Option Params) (t1 t2 : Nat) :
    (classifyIsSelect stmt = false →
       (execute S o stmt params t1 t2).state.lastFromCache = S.lastFromCache) ∧
    (classifyIsSelect stmt = true →
       (execute S o stmt params t1 t2).storeCalled = false →
       (execute S o stmt params t1 t2).state.lastFromCache = some true) ∧
    (classifyIsSelect stmt = true →
       (execute S o stmt params t1 t2).storeCalled = true →
       (∀ e, (execute S o stmt params t1 t2).result ≠ Except.error e) →
       (execute S o stmt params t1 t2).state.lastFromCache = some false) ∧
    (∀ e, (execute S o stmt params t1 t2).result = Except.error e →
       (execute S o stmt params t1 t2).state.lastFromCache = S.lastFromCache) := by
  by_cases hsel : classifyIsSelect stmt = true
  · refine ⟨fun h => absurd hsel (by simp [h]), ?_, ?_, ?_⟩
    · intro _ hsc
      rcases hg : o.redisGet (make_cache_key stmt (params.getD []) S.cachePre)
        with u | (_ | p)
      · cases u
        rcases hl : dictGet S.localCache (make_cache_key stmt (params.getD []) S.cachePre)
          with _ | ⟨p, ex⟩
        · rw [execute_miss_absent S o stmt params t1 t2 hsel (Or.inr hg) hl] at hsc ⊢
          rcases hs : o.store with u | raw
          · cases u; rw [executeMiss_err S o _ t2 () hs] at hsc; simp at hsc
          · rw [executeMiss_ok S o _ t2 raw hs] at hsc; simp at hsc
        · by_cases ht : t1 < ex
          · rw [execute_local_hit S o stmt params t1 t2 p ex hsel (Or.inr hg) hl ht]
          · rw [execute_miss_expired S o stmt params t1 t2 p ex hsel (Or.inr hg) hl
              (Nat.le_of_not_lt ht)] at hsc ⊢
            rcases hs : o.store with u | raw
            · cases u; rw [executeMiss_err _ o _ t2 () hs] at hsc; simp at hsc
            · rw [executeMiss_ok _ o _ t2 raw hs] at hsc; simp at hsc
      · rcases hl : dictGet S.localCache (make_cache_key stmt (params.getD []) S.cachePre)
          with _ | ⟨p, ex⟩
        · rw [execute_miss_absent S o stmt params t1 t2 hsel (Or.inl hg) hl] at hsc ⊢
          rcases hs : o.store with u | raw
          · cases u; rw [executeMiss_err S o _ t2 () hs] at hsc; simp at hsc
          · rw [executeMiss_ok S o _ t2 raw hs] at hsc; simp at hsc
        · by_cases ht : t1 < ex
          · rw [execute_local_hit S o stmt params t1 t2 p ex hsel (Or.inl hg) hl ht]
          · rw [execute_miss_expired S o stmt params t1 t2 p ex hsel (Or.inl hg) hl
              (Nat.le_of_not_lt ht)] at hsc ⊢
            rcases hs : o.store with u | raw
            · cases u; rw [executeMiss_err _ o _ t2 () hs] at hsc; simp at hsc
            · rw [executeMiss_ok _ o _ t2 raw hs] at hsc; simp at hsc
      · rw [execute_remote_hit S o stmt params t1 t2 p hsel hg]
    · intro _ hsc hne
      rcases hg : o.redisGet (make_cache_key stmt (params.getD []) S.cachePre)
        with u | (_ | p)
      · cases u
        rcases hl : dictGet S.localCache (make_cache_key stmt (params.getD []) S.cachePre)
          with _ | ⟨p, ex⟩
        · rw [execute_miss_absent S o stmt params t1 t2 hsel (Or.inr hg) hl] at hne ⊢
          rcases hs : o.store with u | raw
          · cases u
            exact absurd (by rw [executeMiss_err S o _ t2 () hs]) (hne ())
          · rw [executeMiss_ok S o _ t2 raw hs]
        · by_cases ht : t1 < ex
          · rw [execute_local_hit S o stmt params t1 t2 p ex hsel (Or.inr hg) hl ht] at hsc
            simp at hsc
          · rw [execute_miss_expired S o stmt params t1 t2 p ex hsel (Or.inr hg) hl
              (Nat.le_of_not_lt ht)] at hne ⊢
            rcases hs : o.store with u | raw
            · cases u
              exact absurd (by rw [executeMiss_err _ o _ t2 () hs]) (hne ())
            · rw [executeMiss_ok _ o _ t2 raw hs]
      · rcases hl : dictGet S.localCache (make_cache_key stmt (params.getD []) S.cachePre)
          with _ | ⟨p, ex⟩
        · rw [execute_miss_absent S o stmt params t1 t2 hsel (Or.inl hg) hl] at hne ⊢
          rcases hs : o.store with u | raw
          · cases u
            exact absurd (by rw [executeMiss_err S o _ t2 () hs]) (hne ())
          · rw [executeMiss_ok S o _ t2 raw hs]
        · by_cases ht : t1 < ex
          · rw [execute_local_hit S o stmt params t1 t2 p ex hsel (Or.inl hg) hl ht] at hsc
            simp at hsc
          · rw [execute_miss_expired S o stmt params t1 t2 p ex hsel (Or.inl hg) hl
              (Nat.le_of_not_lt ht)] at hne ⊢
            rcases hs : o.store with u | raw
            · cases u
              exact absurd (by rw [executeMiss_err _ o _ t2 () hs]) (hne ())
            · rw [executeMiss_ok _ o _ t2 raw hs]
      · rw [execute_remote_hit S o stmt params t1 t2 p hsel hg] at hsc
        simp at hsc
    · intro e he
      rcases hg : o.redisGet (make_cache_key stmt (params.getD []) S.cachePre)
        with u | (_ | p)
      · cases u
        rcases hl : dictGet S.localCache (make_cache_key stmt (params.getD []) S.cachePre)
          with _ | ⟨p, ex⟩
        · rw [execute_miss_absent S o stmt params t1 t2 hsel (Or.inr hg) hl] at he ⊢
          rcases hs : o.store with u | raw
          · cases u; rw [executeMiss_err S o _ t2 () hs]
          · rw [executeMiss_ok S o _ t2 raw hs] at he; simp at he
        · by_cases ht : t1 < ex
          · rw [execute_local_hit S o stmt params t1 t2 p ex hsel (Or.inr hg) hl ht] at he
            simp at he
          · rw [execute_miss_expired S o stmt params t1 t2 p ex hsel (Or.inr hg) hl
              (Nat.le_of_not_lt ht)] at he ⊢
            rcases hs : o.store with u | raw
            · cases u; rw [executeMiss_err _ o _ t2 () hs]
            · rw [executeMiss_ok _ o _ t2 raw hs] at he; simp at he
      · rcases hl : dictGet S.localCache (make_cache_key stmt (params.getD []) S.cachePre)
          with _ | ⟨p, ex⟩
        · rw [execute_miss_absent S o stmt params t1 t2 hsel (Or.inl hg) hl] at he ⊢
          rcases hs : o.store with u | raw
          · cases u; rw [executeMiss_err S o _ t2 () hs]
          · rw [executeMiss_ok S o _ t2 raw hs] at he; simp at he
        · by_cases ht : t1 < ex
          · rw [execute_local_hit S o stmt params t1 t2 p ex hsel (Or.inl hg) hl ht] at he
            simp at he
          · rw [execute_miss_expired S o stmt params t1 t2 p ex hsel (Or.inl hg) hl
              (Nat.le_of_not_lt ht)] at he ⊢
            rcases hs : o.store with u | raw
            · cases u; rw [executeMiss_err _ o _ t2 () hs]
            · rw [executeMiss_ok _ o _ t2 raw hs] at he; simp at he
      · rw [execute_remote_hit S o stmt params t1 t2 p hsel hg] at he
        simp at he
  · have h : classifyIsSelect stmt = false := by
      cases hc : classifyIsSelect stmt
      · rfl
      · exact absurd hc hsel
    refine ⟨fun _ => ?_, fun hs => absurd hs hsel, fun hs => absurd hs hsel, fun e he => ?_⟩
    · rw [execute_not_select S o stmt params t1 t2 h]
    · rw [execute_not_select S o stmt params t1 t2 h]

/-- Witness for C8 (amended) at a concrete instance: a bypass call leaves the
flag unchanged. -/
theorem C8_witness :
    (execute flagSession (missOracles (.ok sampleRaw)) sampleInsert none 0 0).state.lastFromCache =
      flagSession.lastFromCache :=
  (C8_origin_flag flagSession (missOracles (.ok sampleRaw)) sampleInsert none 0 0).1
    (by decide)

/-- Witness for C4 at a concrete instance: an INSERT statement. -/
theorem C4_witness :
    (execute sampleSession (missOracles (.ok sampleRaw)) sampleInsert none 0 0).result =
      ((missOracles (.ok sampleRaw)).store).map Outcome.raw ∧
    (execute sampleSession (missOracles (.ok sampleRaw)) sampleInsert none 0 0).state =
      sampleSession ∧
    (execute sampleSession (missOracles (.ok sampleRaw)) sampleInsert none 0 0).remoteGets = [] ∧
    (execute sampleSession (missOracles (.ok sampleRaw)) sampleInsert none 0 0).remoteSet = none ∧
    (execute sampleSession (missOracles (.ok sampleRaw)) sampleInsert none 0 0).storeCalled = true :=
  C4_bypass_non_read sampleSession (missOracles (.ok sampleRaw)) sampleInsert none 0 0 rfl
    (by decide)

/-- C2 counterexample: the parameter serialization `repr(params)` preserves
dict insertion order, so the same parameter mapping presented in a different
insertion order (the second dict is the reverse of the first) produces a
different cache key — parameter order is NOT irrelevant to the key. -/
theorem C2_counterexample :
    ([("b", PVal.pint 2), ("a", PVal.pint 1)] : Params) =
      List.reverse [("a", PVal.pint 1), ("b", PVal.pint 2)] ∧
    make_cache_key sampleSelect [("a", PVal.pint 1), ("b", PVal.pint 2)] "sqlcache" ≠
      make_cache_key sampleSelect [("b", PVal.pint 2), ("a", PVal.pint 1)] "sqlcache" := by
  exact ⟨rfl, by decide⟩

/-- C2 (amended): `make_cache_key` is a pure function of the statement text,
the serialized parameters and the namespace — equal texts and equal
serializations give equal keys (so repeated calls with equal inputs agree);
and changing a parameter value changes the key (concretely below).  Equal
parameter mappings with different insertion orders, however, serialize
differently and so get different keys. -/
theorem C2_key_deterministic (s1 s2 : Statement) (p1 p2 : Params) (pre : String)
    (htext : s1.text = s2.text) (hps : reprParams p1 = reprParams p2) :
    make_cache_key s1 p1 pre = make_cache_key s2 p2 pre ∧
    make_cache_key sampleSelect [("a", PVal.pint 1)] "sqlcache" ≠
      make_cache_key sampleSelect [("a", PVal.pint 2)] "sqlcache" := by
  refine ⟨?_, by decide⟩
  simp [make_cache_key, htext, hps]

/-- Witness for C2 (amended): two calls with equal inputs give equal keys. -/
theorem C2_witness :
    make_cache_key sampleSelect [("a", PVal.pint 1)] "sqlcache" =
      make_cache_key sampleSelect [("a", PVal.pint 1)] "sqlcache" ∧
    make_cache_key sampleSelect [("a", PVal.pint 1)] "sqlcache" ≠
      make_cache_key sampleSelect [("a", PVal.pint 2)] "sqlcache" :=
  C2_key_deterministic sampleSelect sampleSelect [("a", PVal.pint 1)] [("a", PVal.pint 1)]
    "sqlcache" rfl rfl

/-- Helper for C3: a second read served from the functional remote tier. -/
theorem second_read_hit (S2 : Session) (remote2 : List (String × Payload))
    (stmt : Statement) (params : Option Params) (raw : RawResult) (t2 t2s : Nat)
    (p : Payload) (hsel : classifyIsSelect stmt = true)
    (hg : dictGet remote2 (make_cache_key stmt (params.getD []) S2.cachePre) = some p) :
    (execute S2 (remoteOracles remote2 (.ok raw)) stmt params t2 t2s).result =
      .ok (.payload p) ∧
    (execute S2 (remoteOracles remote2 (.ok raw)) stmt params t2 t2s).state.lastFromCache =
      some true := by
  rw [execute_remote_hit S2 _ stmt params t2 t2s p hsel (by simp [remoteOracles, hg])]
  exact ⟨rfl, rfl⟩

/-- C3: read-through idempotence — with a healthy cache holding no entry for
the key, and the key locally absent, the first read is DB-served and the
second read of the same statement is cache-served, both returning the same
materialized payload. -/
theorem C3_read_through_idempotence (S : Session) (remote : List (String × Payload))
    (stmt : Statement) (params : Option Params) (raw : RawResult) (t1 t1s t2 t2s : Nat)
    (hsel : classifyIsSelect stmt = true)
    (hrm : dictGet remote (make_cache_key stmt (params.getD []) S.cachePre) = none)
    (hloc : dictGet S.localCache (make_cache_key stmt (params.getD []) S.cachePre) = none) :
    (twoReads S remote stmt params raw t1 t1s t2 t2s).1.state.lastFromCache = some false ∧
    (twoReads S remote stmt params raw t1 t1s t2 t2s).2.state.lastFromCache = some true ∧
    (twoReads S remote stmt params raw t1 t1s t2 t2s).1.result =
      .ok (.payload (materialize raw)) ∧
    (twoReads S remote stmt params raw t1 t1s t2 t2s).2.result =
      (twoReads S remote stmt params raw t1 t1s t2 t2s).1.result := by
  have hr1 : (remoteOracles remote (Except.ok raw)).redisGet
      (make_cache_key stmt (params.getD []) S.cachePre) = .ok none := by
    simp [remoteOracles, hrm]
  simp only [twoReads]
  rw [execute_miss_absent S (remoteOracles remote (.ok raw)) stmt params t1 t1s hsel
      (Or.inl hr1) hloc,
    executeMiss_ok S (remoteOracles remote (.ok raw)) _ t1s raw rfl]
  refine ⟨rfl, ?_, rfl, ?_⟩
  · exact (second_read_hit _ _ stmt params raw t2 t2s (materialize raw) hsel
      (by simp [applyRemoteSet, dictGet_dictSet_self])).2
  · exact (second_read_hit _ _ stmt params raw t2 t2s (materialize raw) hsel
      (by simp [applyRemoteSet, dictGet_dictSet_self])).1

/-- Witness for C3 at a concrete instance: empty caches, one scalar row. -/
theorem C3_witness :
    (twoReads sampleSession [] sampleSelect none sampleRaw 0 0 1 1).1.state.lastFromCache =
      some false ∧
    (twoReads sampleSession [] sampleSelect none sampleRaw 0 0 1 1).2.state.lastFromCache =
      some true ∧
    (twoReads sampleSession [] sampleSelect none sampleRaw 0 0 1 1).1.result =
      .ok (.payload (materialize sampleRaw)) ∧
    (twoReads sampleSession [] sampleSelect none sampleRaw 0 0 1 1).2.result =
      (twoReads sampleSession [] sampleSelect none sampleRaw 0 0 1 1).1.result :=
  C3_read_through_idempotence sampleSession [] sampleSelect none sampleRaw 0 0 1 1
    rfl rfl rfl

/-- C9: the write-invalidation hook never raises into the triggering write
(any internal failure is suppressed); it schedules the namespace-clear task
exactly when the completed statement text classifies as a WRITE and the loop
machinery works; and the scheduled task deletes precisely the remote keys
matching the namespace pattern. -/
theorem C9_invalidation_listener (env : ListenerEnv) (pre : String) (r : RemoteAdmin) :
    (∃ b, after_execute env = .ok b) ∧
    (∀ t, env.clauseText = .ok t → isWriteText t = true →
       env.loopOk = .ok () → env.createTaskOk = .ok () →
       after_execute env = .ok true) ∧
    (∀ t, env.clauseText = .ok t → isWriteText t = false →
       after_execute env = .ok false) ∧
    (∀ ks n, r.keys (pre ++ ":*") = .ok ks → ks.isEmpty = false → r.del ks = .ok n →
       (clearNamespace pre r).deleted = ks ∧ (clearNamespace pre r).result = .ok ()) := by
  refine ⟨?_, ?_, ?_, ?_⟩
  · rcases hb : afterExecuteBody env with u | b
    · exact ⟨false, by simp [after_execute, hb]⟩
    · exact ⟨b, by simp [after_execute, hb]⟩
  · intro t hct hw hl hc
    simp [after_execute, afterExecuteBody, hct, hw, hl, hc]
  · intro t hct hw
    simp [after_execute, afterExecuteBody, hct, hw]
  · intro ks n hks hne hdel
    simp [clearNamespace, hks, hne, hdel]

/-- Witness for C9 at a concrete instance: a completed DELETE schedules the
invalidation task. -/
theorem C9_witness : after_execute writeEnv = .ok true :=
  (C9_invalidation_listener writeEnv "sqlcache" sampleAdmin).2.1 "DELETE FROM users"
    rfl (by decide) rfl rfl

/-- C10: `clear_cache` never touches the local tier (the session, its local
cache included, is returned unchanged), and it does NOT suppress remote
failures: an exception from `keys` or from `delete` propagates to the
caller. -/
theorem C10_clear_cache_propagates (S : Session) (r : RemoteAdmin) :
    (clear_cache S r).2 = S ∧
    (∀ e, r.keys (S.cachePre ++ ":*") = .error e →
       (clear_cache S r).1.result = .error e) ∧
    (∀ ks e, r.keys (S.cachePre ++ ":*") = .ok ks → ks.isEmpty = false →
       r.del ks = .error e → (clear_cache S r).1.result = .error e) := by
  refine ⟨rfl, ?_, ?_⟩
  · intro e hk
    simp [clear_cache, clearNamespace, hk]
  · intro ks e hk hne hd
    simp [clear_cache, clearNamespace, hk, hne, hd]

/-- Witness for C10 at a concrete instance: a raising `keys` call makes
`clear_cache` raise, while the session is untouched. -/
theorem C10_witness :
    (clear_cache sampleSession failAdmin).2 = sampleSession ∧
    (clear_cache sampleSession failAdmin).1.result = .error () :=
  ⟨(C10_clear_cache_propagates sampleSession failAdmin).1,
   (C10_clear_cache_propagates sampleSession failAdmin).2.1 () rfl⟩
